import Mathlib

/-!
Shallow embedding of the UMC HB4 northbridge configuration-register core
(src/chipset/umc_hb4.c).  The device state is the 128-byte PCI configuration
space; calls to external collaborators (memory subsystem, SMRAM subsystem,
CPU timing) are recorded as an event trace instead of being performed.
-/

namespace UmcHb4

/-- Memory-window permission mode, mirroring the MEM_READ_INTERNAL /
MEM_READ_EXTANY / MEM_WRITE_INTERNAL / MEM_WRITE_EXTANY flags passed to
mem_set_mem_state_both. -/
inductive MemMode where
  | internal : MemMode
  | extAny : MemMode
deriving DecidableEq, Repr

/-- One call made to an external collaborator, in program order. -/
inductive Event where
  | mem_set_mem_state_both (base length : Nat) (rd : MemMode) (wr : MemMode) : Event
  | flushmmucache_nopc : Event
  | smram_disable_all : Event
  | smram_enable (guest_base host_base length : Nat)
      (visible_outside_smm visible_in_smm : Bool) : Event
  | mem_set_mem_state_smram_ex (idx base length mode : Nat) : Event
  | cpu_cache_ext_enabled (enabled : Bool) : Event
  | cpu_update_waitstates : Event
deriving DecidableEq, Repr

/-- Device state: the hb4_t structure.  pci_conf is the 128-entry register
file (modelled as a total function on addresses; the device only ever uses
indices 0..127).  The smram handle is opaque and carried implicitly by the
events. -/
structure hb4_t where
  pci_conf : Nat → Nat

/-- Store one byte into the register file (dev->pci_conf[addr] = val). -/
def hb4_t.store (dev : hb4_t) (addr val : Nat) : hb4_t :=
  ⟨fun a => if a = addr then val else dev.pci_conf a⟩

/-- hb4_shadow: recompute shadow-RAM window permissions from registers
0x54 and 0x55 and request a translation-cache flush.  Returns the sequence
of external calls it performs. -/
def hb4_shadow (dev : hb4_t) : List Event :=
  [Event.mem_set_mem_state_both 0xe0000 0x20000
      (if dev.pci_conf 0x55 &&& 0x80 ≠ 0 then MemMode.internal else MemMode.extAny)
      (if dev.pci_conf 0x55 &&& 0x40 ≠ 0 then MemMode.extAny else MemMode.internal)]
  ++ (if dev.pci_conf 0x54 &&& 1 ≠ 0 then
        [(if dev.pci_conf 0x54 &&& 2 ≠ 0 then
            Event.mem_set_mem_state_both 0xc0000 0x8000 MemMode.internal
              (if dev.pci_conf 0x55 &&& 0x40 ≠ 0 then MemMode.extAny else MemMode.internal)
          else
            Event.mem_set_mem_state_both 0xc0000 0x8000 MemMode.extAny MemMode.extAny)]
        ++ (List.range 5).map (fun i =>
              if (dev.pci_conf 0x54 >>> i) &&& 4 ≠ 0 then
                Event.mem_set_mem_state_both (0xc8000 + (i <<< 14)) 0x8000 MemMode.internal
                  (if dev.pci_conf 0x55 &&& 0x40 ≠ 0 then MemMode.extAny else MemMode.internal)
              else
                Event.mem_set_mem_state_both (0xc8000 + (i <<< 14)) 0x8000
                  MemMode.extAny MemMode.extAny)
      else [])
  ++ [Event.flushmmucache_nopc]

/-- hb4_smram: recompute SMRAM visibility and alias routing from register
0x60.  Returns the sequence of external calls it performs. -/
def hb4_smram (dev : hb4_t) : List Event :=
  [Event.smram_disable_all,
   Event.smram_enable 0x000a0000 0x000a0000 0x20000
      ((dev.pci_conf 0x60 &&& 0x01) != 0) true]
  ++ (if dev.pci_conf 0x60 &&& 0x20 ≠ 0 then
        (if dev.pci_conf 0x60 &&& 0x01 ≠ 0 then
            [Event.mem_set_mem_state_smram_ex 0 0x000a0000 0x20000 0x02]
          else [])
        ++ [Event.mem_set_mem_state_smram_ex 1 0x000a0000 0x20000 0x02]
      else [])

/-- hb4_write: the per-address write policy (the switch statement), returning
the updated device and the external calls performed.  The function index is
ignored by the source and omitted here. -/
def hb4_write (dev : hb4_t) (addr val : Nat) : hb4_t × List Event :=
  if addr = 0x04 ∨ addr = 0x05 then
    (dev.store addr val, [])
  else if addr = 0x07 then
    (dev.store addr (dev.pci_conf addr &&& ((val &&& 0xf9) ^^^ 0xff)), [])
  else if addr = 0x0c ∨ addr = 0x0d then
    (dev.store addr val, [])
  else if addr = 0x50 then
    (dev.store addr ((val &&& 0xf8) ||| 4),
     [Event.cpu_cache_ext_enabled ((val &&& 0x80) != 0), Event.cpu_update_waitstates])
  else if addr = 0x51 ∨ addr = 0x52 ∨ addr = 0x53 then
    (dev.store addr val, [])
  else if addr = 0x54 ∨ addr = 0x55 then
    let d := dev.store addr val
    (d, hb4_shadow d)
  else if 0x56 ≤ addr ∧ addr ≤ 0x5f then
    (dev.store addr val, [])
  else if addr = 0x60 then
    let d := dev.store addr val
    (d, hb4_smram d)
  else if addr = 0x61 then
    (dev.store addr val, [])
  else
    (dev, [])

/-- hb4_read: reads return the stored byte unconditionally. -/
def hb4_read (dev : hb4_t) (addr : Nat) : Nat :=
  dev.pci_conf addr

/-- Identity/default bytes written directly into storage by hb4_reset, in
source order. -/
def hb4_reset_conf (dev : hb4_t) : hb4_t :=
  ((((((((((((((dev.store 0x00 0x60).store 0x01 0x10).store
      0x02 0x81).store 0x03 0x88).store 0x07 2).store 0x08 4).store
      0x09 0x00).store 0x0a 0x00).store 0x0b 0x06).store 0x51 1).store
      0x52 1).store 0x5a 4).store 0x5c 0xc0).store 0x5d 0x20).store 0x5f 0xff

/-- hb4_reset: write the fixed identity/default bytes directly into storage,
invoke hb4_shadow once, then perform a normal hb4_write of 0x20 to register
0x60 so its SMRAM side effect fires. -/
def hb4_reset (dev : hb4_t) : hb4_t × List Event :=
  let d := hb4_reset_conf dev
  let r := hb4_write d 0x60 0x20
  (r.1, hb4_shadow d ++ r.2)

/-- Device state produced by hb4_init's memset: an all-zero register file. -/
def hb4_zero : hb4_t := ⟨fun _ => 0⟩

/-- Offsets whose write policy stores the value verbatim (pass-through). -/
def passthrough_offsets : List Nat :=
  [0x04, 0x05, 0x0c, 0x0d, 0x51, 0x52, 0x53, 0x54, 0x55,
   0x56, 0x57, 0x58, 0x59, 0x5a, 0x5b, 0x5c, 0x5d, 0x5e, 0x5f, 0x60, 0x61]

lemma store_same (dev : hb4_t) (addr val : Nat) :
    (dev.store addr val).pci_conf addr = val := by
  simp [hb4_t.store]

lemma store_other (dev : hb4_t) (addr val a : Nat) (h : a ≠ addr) :
    (dev.store addr val).pci_conf a = dev.pci_conf a := by
  simp [hb4_t.store, h]

lemma write54_eq (dev : hb4_t) (v : Nat) :
    hb4_write dev 0x54 v = (dev.store 0x54 v, hb4_shadow (dev.store 0x54 v)) := by
  simp [hb4_write]

lemma write55_eq (dev : hb4_t) (v : Nat) :
    hb4_write dev 0x55 v = (dev.store 0x55 v, hb4_shadow (dev.store 0x55 v)) := by
  simp [hb4_write]

lemma write60_eq (dev : hb4_t) (v : Nat) :
    hb4_write dev 0x60 v = (dev.store 0x60 v, hb4_smram (dev.store 0x60 v)) := by
  simp [hb4_write]

/-- C4: writes to register 0x50 store (v AND 0xF8) OR 0x04, so reading 0x50
back yields that value, with bit2 set and bits 1 and 0 clear (the fixed
pattern 100) regardless of the low bits of the written value. -/
theorem hb4_c4_write50_hardcoded_cache (dev : hb4_t) (v : Nat) :
    hb4_read (hb4_write dev 0x50 v).1 0x50 = ((v &&& 0xf8) ||| 0x04) ∧
    Nat.testBit (hb4_read (hb4_write dev 0x50 v).1 0x50) 0 = false ∧
    Nat.testBit (hb4_read (hb4_write dev 0x50 v).1 0x50) 1 = false ∧
    Nat.testBit (hb4_read (hb4_write dev 0x50 v).1 0x50) 2 = true := by
  have hred : hb4_read (hb4_write dev 0x50 v).1 0x50 = ((v &&& 0xf8) ||| 0x04) := by
    simp [hb4_write, hb4_read, hb4_t.store]
  refine ⟨hred, ?_, ?_, ?_⟩ <;> rw [hred] <;>
    simp [Nat.testBit_lor, Nat.testBit_land,
      (by decide : Nat.testBit 248 0 = false),
      (by decide : Nat.testBit 248 1 = false),
      (by decide : Nat.testBit 248 2 = false),
      (by decide : Nat.testBit 4 0 = false),
      (by decide : Nat.testBit 4 1 = false),
      (by decide : Nat.testBit 4 2 = true)]

/-- C6: writes to register 0x07 have write-one-to-clear semantics: the new
stored value is old AND NOT (v AND 0xF9); bits 1 and 2 are never affected by
the written value, while bits 0 and 3..7 are cleared whenever the
corresponding bit of the written value is set. -/
theorem hb4_c6_write07_clear_mask (dev : hb4_t) (v : Nat) :
    hb4_read (hb4_write dev 0x07 v).1 0x07
        = (dev.pci_conf 0x07 &&& ((v &&& 0xf9) ^^^ 0xff)) ∧
    (∀ j, j = 1 ∨ j = 2 →
      Nat.testBit (hb4_read (hb4_write dev 0x07 v).1 0x07) j
        = Nat.testBit (dev.pci_conf 0x07) j) ∧
    (∀ j, (j = 0 ∨ (3 ≤ j ∧ j ≤ 7)) → Nat.testBit v j = true →
      Nat.testBit (hb4_read (hb4_write dev 0x07 v).1 0x07) j = false) := by
  have hred : hb4_read (hb4_write dev 0x07 v).1 0x07
      = (dev.pci_conf 0x07 &&& ((v &&& 0xf9) ^^^ 0xff)) := by
    simp [hb4_write, hb4_read, hb4_t.store]
  refine ⟨hred, ?_, ?_⟩
  · rintro j (rfl | rfl) <;> rw [hred] <;>
      simp [Nat.testBit_land, Nat.testBit_xor,
        (by decide : Nat.testBit 249 1 = false),
        (by decide : Nat.testBit 249 2 = false),
        (by decide : Nat.testBit 255 1 = true),
        (by decide : Nat.testBit 255 2 = true)]
  · rintro j hj hv
    rw [hred, Nat.testBit_land, Nat.testBit_xor, Nat.testBit_land, hv]
    have h9 : Nat.testBit 0xf9 j = true := by
      rcases hj with rfl | ⟨h3, h7⟩
      · decide
      · interval_cases j <;> decide
    have hff : Nat.testBit 0xff j = true := by
      rcases hj with rfl | ⟨h3, h7⟩
      · decide
      · interval_cases j <;> decide
    simp [h9, hff]

/-- C7: for every pass-through offset, a write followed by a read of the same
offset returns exactly the written value (round-trip identity; reads apply no
masking). -/
theorem hb4_c7_passthrough_roundtrip (dev : hb4_t) (addr v : Nat)
    (h : addr ∈ passthrough_offsets) :
    hb4_read (hb4_write dev addr v).1 addr = v := by
  fin_cases h <;> simp [hb4_read, hb4_write, hb4_t.store]

/-- Witness for C7 at offset 0x57 and value 0xAB. -/
theorem hb4_c7_passthrough_roundtrip_witness :
    hb4_read (hb4_write hb4_zero 0x57 0xab).1 0x57 = 0xab :=
  hb4_c7_passthrough_roundtrip hb4_zero 0x57 0xab (by decide)

/-- C8: a write to any offset below 128 without a defined policy leaves the
device state unchanged and performs no external call; no error is signaled
(the operation is total). -/
theorem hb4_c8_undefined_offset_noop (dev : hb4_t) (addr v : Nat)
    (h1 : addr < 128)
    (h2 : ¬(addr = 0x04 ∨ addr = 0x05 ∨ addr = 0x07 ∨ addr = 0x0c ∨ addr = 0x0d ∨
            (0x50 ≤ addr ∧ addr ≤ 0x5f) ∨ addr = 0x60 ∨ addr = 0x61)) :
    hb4_write dev addr v = (dev, []) := by
  unfold hb4_write
  split_ifs <;> first | rfl | omega

/-- Witness for C8 at offset 0x06 and value 0xAB. -/
theorem hb4_c8_undefined_offset_noop_witness :
    hb4_write hb4_zero 0x06 0xab = (hb4_zero, []) :=
  hb4_c8_undefined_offset_noop hb4_zero 0x06 0xab (by decide) (by decide)

/-- C9: the Shadow-Region Controller output depends only on registers 0x54
and 0x55: two device states agreeing on those two registers produce the
identical sequence of external calls, so re-invocation with unchanged
registers replays the same calls. -/
theorem hb4_c9_shadow_pure (s t : hb4_t)
    (h54 : s.pci_conf 0x54 = t.pci_conf 0x54)
    (h55 : s.pci_conf 0x55 = t.pci_conf 0x55) :
    hb4_shadow s = hb4_shadow t := by
  simp only [hb4_shadow, h54, h55]

/-- Witness for C9: two states that differ at register 0x04 but agree on
0x54/0x55 produce the same shadow call sequence. -/
theorem hb4_c9_shadow_pure_witness :
    hb4_shadow (hb4_zero.store 0x04 0xff) = hb4_shadow hb4_zero :=
  hb4_c9_shadow_pure (hb4_zero.store 0x04 0xff) hb4_zero (by decide) (by decide)

/-- C10: a write to any offset modifies at most the stored byte at that
offset; every other register keeps its value (side effects touch only the
external collaborators, recorded as events, never other registers). -/
theorem hb4_c10_write_frame (dev : hb4_t) (addr v a : Nat)
    (_h1 : addr < 128) (_h2 : a < 128) (h : a ≠ addr) :
    (hb4_write dev addr v).1.pci_conf a = dev.pci_conf a := by
  unfold hb4_write
  split_ifs <;> simp [hb4_t.store, h]

/-- Witness for C10: writing 0x50 leaves register 0x51 unchanged. -/
theorem hb4_c10_write_frame_witness :
    (hb4_write hb4_zero 0x50 0xff).1.pci_conf 0x51 = hb4_zero.pci_conf 0x51 :=
  hb4_c10_write_frame hb4_zero 0x50 0xff 0x51 (by decide) (by decide) (by decide)

/-- Witness for C6: at old value 0xFF and written value 0xF9, bit 0 of
register 0x07 is cleared. -/
theorem hb4_c6_write07_clear_mask_witness :
    Nat.testBit (hb4_read (hb4_write (hb4_zero.store 0x07 0xff) 0x07 0xf9).1 0x07) 0
      = false :=
  (hb4_c6_write07_clear_mask (hb4_zero.store 0x07 0xff) 0xf9).2.2 0 (Or.inl rfl) (by decide)

lemma shadow_head (d : hb4_t) :
    ∃ r w, (hb4_shadow d).head? = some (Event.mem_set_mem_state_both 0xe0000 0x20000 r w) :=
  ⟨_, _, rfl⟩

lemma shadow_bit0_clear (d : hb4_t) (h : d.pci_conf 0x54 &&& 1 = 0) :
    hb4_shadow d = [Event.mem_set_mem_state_both 0xe0000 0x20000
        (if d.pci_conf 0x55 &&& 0x80 ≠ 0 then MemMode.internal else MemMode.extAny)
        (if d.pci_conf 0x55 &&& 0x40 ≠ 0 then MemMode.extAny else MemMode.internal),
      Event.flushmmucache_nopc] := by
  simp [hb4_shadow, h]

lemma shadow_bit0_set_bit1_set (d : hb4_t) (h0 : d.pci_conf 0x54 &&& 1 ≠ 0)
    (h1 : d.pci_conf 0x54 &&& 2 ≠ 0) :
    (hb4_shadow d)[1]? = some (Event.mem_set_mem_state_both 0xc0000 0x8000 MemMode.internal
      (if d.pci_conf 0x55 &&& 0x40 ≠ 0 then MemMode.extAny else MemMode.internal)) := by
  have h0' : d.pci_conf 0x54 % 2 = 1 := by
    rw [Nat.and_one_is_mod] at h0; omega
  simp [hb4_shadow, h0', h1]

lemma shadow_bit0_set_bit1_clear (d : hb4_t) (h0 : d.pci_conf 0x54 &&& 1 ≠ 0)
    (h1 : d.pci_conf 0x54 &&& 2 = 0) :
    (hb4_shadow d)[1]? =
      some (Event.mem_set_mem_state_both 0xc0000 0x8000 MemMode.extAny MemMode.extAny) := by
  have h0' : d.pci_conf 0x54 % 2 = 1 := by
    rw [Nat.and_one_is_mod] at h0; omega
  simp [hb4_shadow, h0', h1]

/-- C3: on a write to 0x54 or 0x55 the Shadow-Region Controller first applies
the [0xE0000, +0x20000) window; with bit0 of register 0x54 clear no further
window is touched (only the flush follows); with bit0 set, the
[0xC0000, +0x8000) window gets read Internal and write per bit6 of 0x55 when
bit1 of 0x54 is set, and (ExternalAny, ExternalAny) when bit1 is clear; in
particular after write(0x54, 0x01) then write(0x55, 0x00) the 0xC0000 window
receives (ExternalAny, ExternalAny). -/
theorem hb4_c3_shadow_windows (dev : hb4_t) (addr v : Nat)
    (h : addr = 0x54 ∨ addr = 0x55) :
    (∃ r w, ((hb4_write dev addr v).2).head? =
        some (Event.mem_set_mem_state_both 0xe0000 0x20000 r w)) ∧
    ((hb4_write dev addr v).1.pci_conf 0x54 &&& 1 = 0 →
      ∃ r w, (hb4_write dev addr v).2 =
        [Event.mem_set_mem_state_both 0xe0000 0x20000 r w, Event.flushmmucache_nopc]) ∧
    ((hb4_write dev addr v).1.pci_conf 0x54 &&& 1 ≠ 0 →
      (hb4_write dev addr v).1.pci_conf 0x54 &&& 2 ≠ 0 →
      ((hb4_write dev addr v).2)[1]? =
        some (Event.mem_set_mem_state_both 0xc0000 0x8000 MemMode.internal
          (if (hb4_write dev addr v).1.pci_conf 0x55 &&& 0x40 ≠ 0 then MemMode.extAny
           else MemMode.internal))) ∧
    ((hb4_write dev addr v).1.pci_conf 0x54 &&& 1 ≠ 0 →
      (hb4_write dev addr v).1.pci_conf 0x54 &&& 2 = 0 →
      ((hb4_write dev addr v).2)[1]? =
        some (Event.mem_set_mem_state_both 0xc0000 0x8000 MemMode.extAny MemMode.extAny)) ∧
    ((hb4_write (hb4_write dev 0x54 0x01).1 0x55 0x00).2)[1]? =
      some (Event.mem_set_mem_state_both 0xc0000 0x8000 MemMode.extAny MemMode.extAny) := by
  have hsc : ((hb4_write (hb4_write dev 0x54 0x01).1 0x55 0x00).2)[1]? =
      some (Event.mem_set_mem_state_both 0xc0000 0x8000 MemMode.extAny MemMode.extAny) := by
    simp only [write54_eq, write55_eq]
    apply shadow_bit0_set_bit1_clear <;> simp [hb4_t.store]
  rcases h with rfl | rfl
  · simp only [write54_eq]
    exact ⟨shadow_head _, fun hb => ⟨_, _, shadow_bit0_clear _ hb⟩,
           fun h0 h1 => shadow_bit0_set_bit1_set _ h0 h1,
           fun h0 h1 => shadow_bit0_set_bit1_clear _ h0 h1, hsc⟩
  · simp only [write55_eq]
    exact ⟨shadow_head _, fun hb => ⟨_, _, shadow_bit0_clear _ hb⟩,
           fun h0 h1 => shadow_bit0_set_bit1_set _ h0 h1,
           fun h0 h1 => shadow_bit0_set_bit1_clear _ h0 h1, hsc⟩

/-- Witness for C3: after write(0x54, 0x01) from the zero state, the second
shadow call sets the 0xC0000 window to (ExternalAny, ExternalAny). -/
theorem hb4_c3_shadow_windows_witness :
    ((hb4_write hb4_zero 0x54 1).2)[1]? =
      some (Event.mem_set_mem_state_both 0xc0000 0x8000 MemMode.extAny MemMode.extAny) :=
  (hb4_c3_shadow_windows hb4_zero 0x54 1 (Or.inl rfl)).2.2.2.1 (by decide) (by decide)

/-- C2: a write of v to register 0x60 first disables all SMRAM mappings, then
enables the fixed region (guest base 0xA0000, host base 0xA0000, length
0x20000) with visible_outside_smm equal to bit0 of v and visible_in_smm
unconditionally true; alias index 1 gets routing mode 0x02 exactly when bit5
of v is set, alias index 0 exactly when bits 5 and 0 are both set; with bit5
clear no alias-routing call is made. -/
theorem hb4_c2_write60_smram_policy (dev : hb4_t) (v : Nat) :
    ((hb4_write dev 0x60 v).2.head? = some Event.smram_disable_all) ∧
    ((hb4_write dev 0x60 v).2[1]? =
      some (Event.smram_enable 0x000a0000 0x000a0000 0x20000 ((v &&& 0x01) != 0) true)) ∧
    (Event.mem_set_mem_state_smram_ex 1 0x000a0000 0x20000 0x02 ∈ (hb4_write dev 0x60 v).2
      ↔ v &&& 0x20 ≠ 0) ∧
    (Event.mem_set_mem_state_smram_ex 0 0x000a0000 0x20000 0x02 ∈ (hb4_write dev 0x60 v).2
      ↔ (v &&& 0x20 ≠ 0 ∧ v &&& 0x01 ≠ 0)) ∧
    (v &&& 0x20 = 0 → (hb4_write dev 0x60 v).2 =
      [Event.smram_disable_all,
       Event.smram_enable 0x000a0000 0x000a0000 0x20000 ((v &&& 0x01) != 0) true]) := by
  rw [write60_eq]
  by_cases h20 : v &&& 0x20 = 0 <;> by_cases h01 : v &&& 0x01 = 0 <;>
    simp [hb4_smram, store_same, h20, h01]

/-- Witness for C2 at v = 0: the trace is exactly the disable followed by
the enable with both alias calls absent. -/
theorem hb4_c2_write60_smram_policy_witness :
    (hb4_write hb4_zero 0x60 0).2 =
      [Event.smram_disable_all,
       Event.smram_enable 0x000a0000 0x000a0000 0x20000 (((0 : Nat) &&& 0x01) != 0) true] :=
  (hb4_c2_write60_smram_policy hb4_zero 0).2.2.2.2 (by decide)

/-- C1: after hb4_reset the identity bytes read back as 0x60, 0x10, 0x81,
0x88 at offsets 0..3, 0x01 at 0x51 and 0xFF at 0x5F; the event trace is one
Shadow-Region Controller invocation followed by the SMRAM calls of the
standard write of 0x20 to register 0x60, which enable SMRAM at base 0xA0000
length 0x20000 with visible_in_smm = true. -/
theorem hb4_c1_reset_identity (dev : hb4_t) :
    hb4_read (hb4_reset dev).1 0x00 = 0x60 ∧
    hb4_read (hb4_reset dev).1 0x01 = 0x10 ∧
    hb4_read (hb4_reset dev).1 0x02 = 0x81 ∧
    hb4_read (hb4_reset dev).1 0x03 = 0x88 ∧
    hb4_read (hb4_reset dev).1 0x51 = 0x01 ∧
    hb4_read (hb4_reset dev).1 0x5f = 0xff ∧
    (hb4_reset dev).2 = hb4_shadow (hb4_reset_conf dev) ++
      [Event.smram_disable_all,
       Event.smram_enable 0x000a0000 0x000a0000 0x20000 false true,
       Event.mem_set_mem_state_smram_ex 1 0x000a0000 0x20000 0x02] ∧
    Event.smram_enable 0x000a0000 0x000a0000 0x20000 false true ∈ (hb4_reset dev).2 := by
  refine ⟨?_, ?_, ?_, ?_, ?_, ?_, ?_, ?_⟩ <;>
    simp [hb4_reset, hb4_read, hb4_reset_conf, write60_eq, hb4_smram, hb4_t.store]

/-- C5: the five stepped shadow windows have length 0x8000 but stride 0x4000,
so consecutive windows overlap: with register 0x54 = 0x01 one shadow
invocation sets both the window based at 0xC8000 and the window based at
0xCC000, and the second base lies strictly inside the first window's range.
This contradicts the claimed pairwise disjointness (and the source's own
register documentation, which assigns disjoint 16KB segments per bit). -/
theorem hb4_c5_windows_overlap :
    Event.mem_set_mem_state_both 0xc8000 0x8000 MemMode.extAny MemMode.extAny
        ∈ hb4_shadow (hb4_zero.store 0x54 0x01) ∧
    Event.mem_set_mem_state_both 0xcc000 0x8000 MemMode.extAny MemMode.extAny
        ∈ hb4_shadow (hb4_zero.store 0x54 0x01) ∧
    0xc8000 < 0xcc000 ∧ 0xcc000 < 0xc8000 + 0x8000 := by
  decide

end UmcHb4
